import Mathlib

/-!
Verification of the heatmap rendering engine of `strava-local-heatmap`
(`osm_helpers.py`, `strava_local_heatmap.py`) against its specification.

The numeric code is embedded with real-number semantics (`ℝ`); machine
floats in the source are modelled as exact reals, except where a claim is
specifically about a division by zero: there the result of a float division
is modelled as `Option ℝ`, with `none` standing for the non-finite float
values (NaN/±Inf) that numpy produces instead of raising.  Python `int()`
applied to a float is modelled as truncation toward zero (`pytrunc`).
Side-effecting parts of the pipeline (tile downloads, supertile assembly)
are modelled by the list of externally visible events they perform.
-/

namespace StravaHeatmap

open Real

/-! ### Coordinate mapper (`osm_helpers.py`) -/

/-- `np.radians`: degrees to radians. -/
noncomputable def radians (d : ℝ) : ℝ := d * π / 180

/-- `np.degrees`: radians to degrees. -/
noncomputable def degrees (r : ℝ) : ℝ := r * 180 / π

/-- `osm_helpers.deg2xy`: OSM global (x, y) from (lat, lon) in degrees at a zoom
level.  `x = (lon + 180)/360 * 2^zoom`,
`y = (1 - log(tan lat_rad + 1/cos lat_rad)/π)/2 * 2^zoom`. -/
noncomputable def deg2xy (lat_deg lon_deg : ℝ) (zoom : ℕ) : ℝ × ℝ :=
  ((lon_deg + 180) / 360 * 2 ^ zoom,
   (1 - Real.log (Real.tan (radians lat_deg) + 1 / Real.cos (radians lat_deg)) / π)
     / 2 * 2 ^ zoom)

/-- Python `int()` on a float: truncation toward zero. -/
noncomputable def pytrunc (x : ℝ) : ℤ := if 0 ≤ x then ⌊x⌋ else ⌈x⌉

/-- `osm_helpers.deg2tile_coord`: calls `deg2xy` and converts both components
with Python `int()`. -/
noncomputable def deg2tile_coord (lat_deg lon_deg : ℝ) (zoom : ℕ) : ℤ × ℤ :=
  (pytrunc (deg2xy lat_deg lon_deg zoom).1, pytrunc (deg2xy lat_deg lon_deg zoom).2)

/-- `osm_helpers.num2deg`: (lat, lon) in degrees of the corner of OSM tile
(x_tile, y_tile) at a zoom level. -/
noncomputable def num2deg (x_tile y_tile : ℝ) (zoom : ℕ) : ℝ × ℝ :=
  (degrees (Real.arctan (Real.sinh (π * (1 - 2 * y_tile / 2 ^ zoom)))),
   x_tile / 2 ^ zoom * 360 - 180)

/-! ### Colorizer and compositor (`strava_local_heatmap.create_heatmap`,
final overlay loop) -/

/-- The per-channel compositing loop of `create_heatmap`:
`supertile_overlay[:, :, c] = (1 - data_color[:, :, c]) * supertile[:, :, c]
+ data_color[:, :, c]`, pointwise over pixels `(i, j)` and channels `c`. -/
noncomputable def supertile_overlay (data_color supertile : ℕ → ℕ → Fin 3 → ℝ) :
    ℕ → ℕ → Fin 3 → ℝ :=
  fun i j c => (1 - data_color i j c) * supertile i j c + data_color i j c

/-! ### Density clamping (`strava_local_heatmap.create_heatmap`,
threshold step) -/

/-- `np.mean` of a list of reals. -/
noncomputable def mean (xs : List ℝ) : ℝ := xs.sum / xs.length

/-- The pixel resolution computed in `create_heatmap`:
`156543.03 * cos(radians(mean latitude)) / 2 ** zoom`. -/
noncomputable def pixel_res (mean_lat_deg : ℝ) (zoom : ℕ) : ℝ :=
  156543.03 * Real.cos (radians mean_lat_deg) / 2 ^ zoom

/-- The clamp threshold `m = (1.0 / 5.0) * pixel_res * nr_activities`, with the
mean taken over the latitudes (first components) of the consumed points. -/
noncomputable def trackpoint_threshold (pts : List (ℝ × ℝ)) (nr_activities : ℕ)
    (zoom : ℕ) : ℝ :=
  (1 / 5) * pixel_res (mean (pts.map Prod.fst)) zoom * nr_activities

open Classical in
/-- The clamping step `data[data > m] = m`, pointwise on the density grid. -/
noncomputable def clamp_data (m : ℝ) (data : ℕ → ℕ → ℝ) : ℕ → ℕ → ℝ :=
  fun i j => if m < data i j then m else data i j

/-! ### Truncation toward zero -/

/-- `pytrunc` of an integer is that integer. -/
theorem pytrunc_intCast (k : ℤ) : pytrunc (k : ℝ) = k := by
  unfold pytrunc
  split
  · exact Int.floor_intCast k
  · exact Int.ceil_intCast k

/-- `pytrunc` is truncation toward zero: the output never exceeds the input
in magnitude, is within distance 1 of it, and has the same sign. -/
theorem pytrunc_trunc_toward_zero (x : ℝ) :
    |(pytrunc x : ℝ)| ≤ |x| ∧ |x| < |(pytrunc x : ℝ)| + 1 ∧
      0 ≤ (pytrunc x : ℝ) * x := by
  unfold pytrunc
  by_cases hx : 0 ≤ x
  · rw [if_pos hx]
    have h0 : (0 : ℝ) ≤ (⌊x⌋ : ℝ) := by
      exact_mod_cast Int.floor_nonneg.mpr hx
    have hfl : (⌊x⌋ : ℝ) ≤ x := Int.floor_le x
    have hfu : x < (⌊x⌋ : ℝ) + 1 := Int.lt_floor_add_one x
    refine ⟨?_, ?_, ?_⟩
    · rw [abs_of_nonneg h0, abs_of_nonneg hx]; exact hfl
    · rw [abs_of_nonneg h0, abs_of_nonneg hx]; exact hfu
    · exact mul_nonneg h0 hx
  · rw [if_neg hx]
    push_neg at hx
    have h0 : (⌈x⌉ : ℝ) ≤ 0 := by
      have : ⌈x⌉ ≤ (0 : ℤ) := Int.ceil_le.mpr (by exact_mod_cast hx.le)
      exact_mod_cast this
    have hcl : x ≤ (⌈x⌉ : ℝ) := Int.le_ceil x
    have hcu : (⌈x⌉ : ℝ) - 1 < x := by
      have := Int.ceil_lt_add_one x
      linarith
    refine ⟨?_, ?_, ?_⟩
    · rw [abs_of_nonpos h0, abs_of_nonpos hx.le]; linarith
    · rw [abs_of_nonpos h0, abs_of_nonpos hx.le]; linarith
    · nlinarith [mul_nonneg (neg_nonneg.mpr h0) (neg_nonneg.mpr hx.le)]

/-- Converting degrees to radians inverts converting radians to degrees. -/
theorem radians_degrees (θ : ℝ) : radians (degrees θ) = θ := by
  unfold radians degrees
  field_simp

/-! ### Claim theorems (first group) -/

/-- Claim C4: round-trip of the coordinate mapper: for every integer tile
index (xi, yi) and zoom level, converting the tile corner back to degrees
with `num2deg` and re-deriving the tile index with `deg2tile_coord` at the
same zoom yields exactly (xi, yi). -/
theorem unproject_project_roundtrip (xi yi : ℤ) (zoom : ℕ) :
    deg2tile_coord (num2deg (xi : ℝ) (yi : ℝ) zoom).1
      (num2deg (xi : ℝ) (yi : ℝ) zoom).2 zoom = (xi, yi) := by
  have hn : (0 : ℝ) < 2 ^ zoom := by positivity
  have hn' : (2 : ℝ) ^ zoom ≠ 0 := ne_of_gt hn
  have hπ : (π : ℝ) ≠ 0 := Real.pi_ne_zero
  set t : ℝ := π * (1 - 2 * (yi : ℝ) / 2 ^ zoom) with ht
  have hrad : radians (num2deg (xi : ℝ) (yi : ℝ) zoom).1
      = Real.arctan (Real.sinh t) := by
    simp only [num2deg]
    exact radians_degrees _
  have hx : (deg2xy (num2deg (xi : ℝ) (yi : ℝ) zoom).1
      (num2deg (xi : ℝ) (yi : ℝ) zoom).2 zoom).1 = (xi : ℝ) := by
    simp only [deg2xy, num2deg]
    field_simp
    ring
  have hinner : Real.tan (radians (num2deg (xi : ℝ) (yi : ℝ) zoom).1)
      + 1 / Real.cos (radians (num2deg (xi : ℝ) (yi : ℝ) zoom).1)
      = Real.exp t := by
    rw [hrad, Real.tan_arctan, Real.cos_arctan, one_div_one_div]
    have h1 : 1 + Real.sinh t ^ 2 = Real.cosh t ^ 2 := by
      rw [Real.cosh_sq]; ring
    rw [h1, Real.sqrt_sq (Real.cosh_pos t).le, add_comm]
    exact Real.cosh_add_sinh t
  have hy : (deg2xy (num2deg (xi : ℝ) (yi : ℝ) zoom).1
      (num2deg (xi : ℝ) (yi : ℝ) zoom).2 zoom).2 = (yi : ℝ) := by
    simp only [deg2xy]
    rw [hinner, Real.log_exp, ht]
    field_simp
    ring
  unfold deg2tile_coord
  rw [hx, hy, pytrunc_intCast, pytrunc_intCast]

/-- Claim C8: for every latitude strictly between -90 and 90 degrees, every
longitude and every zoom, `deg2tile_coord` returns exactly the continuous
coordinates of `deg2xy` truncated toward zero to integers (each component has
magnitude at most the continuous value, lies within distance 1 of it, and has
the same sign) — truncation, not rounding. -/
theorem tileIndex_truncates_project (lat lon : ℝ) (zoom : ℕ)
    (h1 : -90 < lat) (h2 : lat < 90) :
    deg2tile_coord lat lon zoom
      = (pytrunc (deg2xy lat lon zoom).1, pytrunc (deg2xy lat lon zoom).2) ∧
    (|((deg2tile_coord lat lon zoom).1 : ℝ)| ≤ |(deg2xy lat lon zoom).1| ∧
     |(deg2xy lat lon zoom).1| < |((deg2tile_coord lat lon zoom).1 : ℝ)| + 1 ∧
     0 ≤ ((deg2tile_coord lat lon zoom).1 : ℝ) * (deg2xy lat lon zoom).1) ∧
    (|((deg2tile_coord lat lon zoom).2 : ℝ)| ≤ |(deg2xy lat lon zoom).2| ∧
     |(deg2xy lat lon zoom).2| < |((deg2tile_coord lat lon zoom).2 : ℝ)| + 1 ∧
     0 ≤ ((deg2tile_coord lat lon zoom).2 : ℝ) * (deg2xy lat lon zoom).2) := by
  refine ⟨rfl, ?_, ?_⟩
  · exact pytrunc_trunc_toward_zero (deg2xy lat lon zoom).1
  · exact pytrunc_trunc_toward_zero (deg2xy lat lon zoom).2

/-- Witness for claim C8 at lat = 0, lon = 0, zoom = 0. -/
theorem tileIndex_truncates_project_witness :
    deg2tile_coord 0 0 0
      = (pytrunc (deg2xy 0 0 0).1, pytrunc (deg2xy 0 0 0).2) ∧
    (|((deg2tile_coord 0 0 0).1 : ℝ)| ≤ |(deg2xy 0 0 0).1| ∧
     |(deg2xy 0 0 0).1| < |((deg2tile_coord 0 0 0).1 : ℝ)| + 1 ∧
     0 ≤ ((deg2tile_coord 0 0 0).1 : ℝ) * (deg2xy 0 0 0).1) ∧
    (|((deg2tile_coord 0 0 0).2 : ℝ)| ≤ |(deg2xy 0 0 0).2| ∧
     |(deg2xy 0 0 0).2| < |((deg2tile_coord 0 0 0).2 : ℝ)| + 1 ∧
     0 ≤ ((deg2tile_coord 0 0 0).2 : ℝ) * (deg2xy 0 0 0).2) :=
  tileIndex_truncates_project 0 0 0 (by norm_num) (by norm_num)

/-- Claim C5: the per-channel compositing rule
`output[c] = (1 - color[c]) * base[c] + color[c]` reproduces the base exactly
when the overlay color is (0,0,0), and produces exactly (1,1,1) regardless of
the base when the overlay color is (1,1,1). -/
theorem compositing_identities (base : ℕ → ℕ → Fin 3 → ℝ) :
    supertile_overlay (fun _ _ _ => 0) base = base ∧
    supertile_overlay (fun _ _ _ => 1) base = fun _ _ _ => 1 := by
  constructor <;> funext i j c <;> simp [supertile_overlay]

/-- Claim C6: after accumulation the grid is clamped cell-wise: each cell
becomes the minimum of its accumulated value and
`m = (1/5) * (156543.03 * cos(meanLatitudeRadians) / 2^zoom) * activityCount`
(so every cell ends at most `m`, and cells already at most `m` are
unchanged). -/
theorem clamp_cellwise (pts : List (ℝ × ℝ)) (nr_activities : ℕ) (zoom : ℕ)
    (data : ℕ → ℕ → ℝ) (i j : ℕ) :
    clamp_data (trackpoint_threshold pts nr_activities zoom) data i j
      = min (data i j)
          ((1 / 5) * (156543.03 * Real.cos (mean (pts.map Prod.fst) * π / 180)
            / 2 ^ zoom) * nr_activities) ∧
    clamp_data (trackpoint_threshold pts nr_activities zoom) data i j
      ≤ (1 / 5) * (156543.03 * Real.cos (mean (pts.map Prod.fst) * π / 180)
            / 2 ^ zoom) * nr_activities := by
  have hm : trackpoint_threshold pts nr_activities zoom
      = (1 / 5) * (156543.03 * Real.cos (mean (pts.map Prod.fst) * π / 180)
          / 2 ^ zoom) * nr_activities := by
    simp [trackpoint_threshold, pixel_res, radians]
  constructor
  · rw [clamp_data, hm]
    split
    · exact (min_eq_right (le_of_lt (by assumption))).symm
    · exact (min_eq_left (le_of_not_lt (by assumption))).symm
  · rw [clamp_data, hm]
    split
    · exact le_refl _
    · exact le_of_not_lt (by assumption)

/-! ### Normalization step (`create_heatmap`:
`data = (data - data.min()) / (data.max() - data.min())`) -/

open Classical in
/-- Float division as performed by numpy: a division by zero does not raise,
it produces a non-finite value (NaN for 0/0, ±Inf otherwise), modelled here
as `none`. -/
noncomputable def fdiv (a b : ℝ) : Option ℝ :=
  if b = 0 then none else some (a / b)

/-- `data.min()` of a (nonempty) grid. -/
noncomputable def data_min {m n : ℕ} (g : Fin (m + 1) → Fin (n + 1) → ℝ) : ℝ :=
  Finset.univ.inf' Finset.univ_nonempty
    (fun p : Fin (m + 1) × Fin (n + 1) => g p.1 p.2)

/-- `data.max()` of a (nonempty) grid. -/
noncomputable def data_max {m n : ℕ} (g : Fin (m + 1) → Fin (n + 1) → ℝ) : ℝ :=
  Finset.univ.sup' Finset.univ_nonempty
    (fun p : Fin (m + 1) × Fin (n + 1) => g p.1 p.2)

/-- The normalization step of `create_heatmap`, cell-wise:
`(data - data.min()) / (data.max() - data.min())`. -/
noncomputable def normalize_data {m n : ℕ} (g : Fin (m + 1) → Fin (n + 1) → ℝ) :
    Fin (m + 1) → Fin (n + 1) → Option ℝ :=
  fun i j => fdiv (g i j - data_min g) (data_max g - data_min g)

/-! ### Download policy check and render control flow
(`osm_helpers.download_tiles_for_area`, `create_heatmap`) -/

/-- `osm_helpers.MAX_TILE_COUNT`. -/
def MAX_TILE_COUNT : ℤ := 500

/-- The externally visible actions of a render: an attempted tile download,
the `'ERROR zoom value too high'` print, and the (attempted) supertile
assembly that `create_heatmap` performs after the download step. -/
inductive RenderEvent where
  | tileFetch (x y : ℤ)
  | errorPrint
  | assembleSupertile
deriving DecidableEq

/-- Python `range(a, b)` as a list of integers. -/
def intRange (a b : ℤ) : List ℤ :=
  (List.range (b - a).toNat).map (fun k => a + k)

/-- The requested tile count
`(x_tile_max - x_tile_min + 1) * (y_tile_max - y_tile_min + 1)`. -/
def tile_count (x_tile_min x_tile_max y_tile_min y_tile_max : ℤ) : ℤ :=
  (x_tile_max - x_tile_min + 1) * (y_tile_max - y_tile_min + 1)

/-- Event trace of `osm_helpers.download_tiles_for_area`: if the tile count
exceeds `MAX_TILE_COUNT` it prints an error and returns (downloading
nothing); otherwise it fetches every tile of the rectangle that is not
already cached (`cached` models the `glob.glob(tile_file)` check).  In
Python the function returns `None` on both paths. -/
def download_tiles_for_area (x_tile_min x_tile_max y_tile_min y_tile_max : ℤ)
    (cached : ℤ → ℤ → Bool) : List RenderEvent :=
  if tile_count x_tile_min x_tile_max y_tile_min y_tile_max > MAX_TILE_COUNT then
    [RenderEvent.errorPrint]
  else
    (intRange x_tile_min (x_tile_max + 1)).flatMap fun x =>
      (intRange y_tile_min (y_tile_max + 1)).filterMap fun y =>
        if cached x y then none else some (RenderEvent.tileFetch x y)

/-- The covering tile index rectangle, in the order
(x_tile_min, x_tile_max, y_tile_min, y_tile_max) used by `create_heatmap`. -/
structure TileRange where
  x_tile_min : ℤ
  x_tile_max : ℤ
  y_tile_min : ℤ
  y_tile_max : ℤ

open Classical in
/-- The bounding-box crop at the start of `create_heatmap`: keep the points
strictly inside the configured bounds. -/
noncomputable def crop_data (pts : List (ℝ × ℝ))
    (lat_bound_min lat_bound_max lon_bound_min lon_bound_max : ℝ) :
    List (ℝ × ℝ) :=
  pts.filter fun p =>
    decide (lat_bound_min < p.1) && decide (p.1 < lat_bound_max) &&
    decide (lon_bound_min < p.2) && decide (p.2 < lon_bound_max)

/-- The tile index range computation of `create_heatmap` (lines 106-122):
crop to the bounding box, then derive the covering tile rectangle either
from the bounds (`equal = true`) or from the min/max of the data.  With an
empty cropped data set and `equal = false`, `lat_lon_data[:, 0].min()`
raises `ValueError` (a reduction over a zero-size array), modelled as
`none`. -/
noncomputable def tile_range (pts : List (ℝ × ℝ)) (equal : Bool)
    (lat_bound_min lat_bound_max lon_bound_min lon_bound_max : ℝ)
    (zoom : ℕ) : Option TileRange :=
  let d := crop_data pts lat_bound_min lat_bound_max lon_bound_min lon_bound_max
  if equal then
    some ⟨(deg2tile_coord lat_bound_min lon_bound_min zoom).1,
          (deg2tile_coord lat_bound_max lon_bound_max zoom).1,
          (deg2tile_coord lat_bound_max lon_bound_max zoom).2,
          (deg2tile_coord lat_bound_min lon_bound_min zoom).2⟩
  else
    match d with
    | [] => none
    | p :: rest =>
      let lat_min := (rest.map Prod.fst).foldl min p.1
      let lat_max := (rest.map Prod.fst).foldl max p.1
      let lon_min := (rest.map Prod.snd).foldl min p.2
      let lon_max := (rest.map Prod.snd).foldl max p.2
      some ⟨(deg2tile_coord lat_min lon_min zoom).1,
            (deg2tile_coord lat_max lon_max zoom).1,
            (deg2tile_coord lat_max lon_max zoom).2,
            (deg2tile_coord lat_min lon_min zoom).2⟩

/-- What `create_heatmap` does once the tile rectangle is known: it calls
`download_tiles_for_area` and then unconditionally goes on to assemble the
supertile — there is no check of the tile-count policy in between. -/
def render_from_range (r : TileRange) (cached : ℤ → ℤ → Bool) :
    List RenderEvent :=
  download_tiles_for_area r.x_tile_min r.x_tile_max r.y_tile_min r.y_tile_max
    cached ++ [RenderEvent.assembleSupertile]

/-- The event trace of a `create_heatmap` call, `none` when the range
computation raises. -/
noncomputable def create_heatmap_events (pts : List (ℝ × ℝ)) (equal : Bool)
    (lat_bound_min lat_bound_max lon_bound_min lon_bound_max : ℝ)
    (zoom : ℕ) (cached : ℤ → ℤ → Bool) : Option (List RenderEvent) :=
  (tile_range pts equal lat_bound_min lat_bound_max lon_bound_min
      lon_bound_max zoom).map
    (fun r => render_from_range r cached)

/-! ### Claim theorems (second group) -/

/-- Claim C1 (failing input): on a degenerate grid (max = min, here the
all-zero 2×2 grid produced by an empty point set) the normalization step of
`create_heatmap` performs the division by zero — every cell becomes the
non-finite float value `none` (numpy NaN), not the all-zero grid the
specification prescribes. -/
theorem degenerate_normalization_divides_by_zero :
    normalize_data (fun _ _ : Fin 2 => (0 : ℝ)) 0 0 = none ∧
    normalize_data (fun _ _ : Fin 2 => (0 : ℝ)) 0 0 ≠ some 0 := by
  have hmin : data_min (fun _ _ : Fin 2 => (0 : ℝ)) = 0 := by
    simp [data_min]
  have hmax : data_max (fun _ _ : Fin 2 => (0 : ℝ)) = 0 := by
    simp [data_max]
  have h : normalize_data (fun _ _ : Fin 2 => (0 : ℝ)) 0 0 = none := by
    unfold normalize_data
    rw [hmin, hmax]
    simp [fdiv]
  exact ⟨h, by rw [h]; exact fun hc => Option.noConfusion hc⟩

/-- Claim C3 (failing input): invoked with the empty point sequence (and the
data-derived extent, `equal = false`), `create_heatmap` does not return a
degenerate all-zero-density image: the `lat_lon_data[:, 0].min()` reduction
raises `ValueError` on the zero-size array and the render fails (`none`). -/
theorem empty_input_render_raises (lat_bound_min lat_bound_max lon_bound_min
    lon_bound_max : ℝ) (zoom : ℕ) (cached : ℤ → ℤ → Bool) :
    create_heatmap_events [] false lat_bound_min lat_bound_max lon_bound_min
      lon_bound_max zoom cached = none := by
  simp [create_heatmap_events, tile_range, crop_data]

/-- Claim C2 (counterexample): a requested tile rectangle of 25×25 = 625 > 500
tiles exceeds the policy maximum, yet the render still proceeds: the
supertile assembly step is reached (the download step only prints and
returns, signalling nothing to `create_heatmap`). -/
theorem tile_count_guard_render_proceeds :
    tile_count 0 24 0 24 > MAX_TILE_COUNT ∧
    RenderEvent.assembleSupertile
      ∈ render_from_range ⟨0, 24, 0, 24⟩ (fun _ _ => false) := by
  constructor
  · decide
  · decide

/-- Claim C2 (amended): when the requested tile rectangle exceeds
`MAX_TILE_COUNT`, the download step performs no tile fetch — its whole event
trace is the error print, so the guard does run before any network activity —
but it returns normally and `create_heatmap` proceeds to attempt the
supertile assembly. -/
theorem tile_count_guard_no_fetch_render_proceeds
    (x_tile_min x_tile_max y_tile_min y_tile_max : ℤ)
    (cached : ℤ → ℤ → Bool)
    (h : tile_count x_tile_min x_tile_max y_tile_min y_tile_max
      > MAX_TILE_COUNT) :
    download_tiles_for_area x_tile_min x_tile_max y_tile_min y_tile_max cached
      = [RenderEvent.errorPrint] ∧
    RenderEvent.assembleSupertile
      ∈ render_from_range ⟨x_tile_min, x_tile_max, y_tile_min, y_tile_max⟩
          cached := by
  have hd : download_tiles_for_area x_tile_min x_tile_max y_tile_min
      y_tile_max cached = [RenderEvent.errorPrint] := by
    unfold download_tiles_for_area
    rw [if_pos h]
  refine ⟨hd, ?_⟩
  unfold render_from_range
  dsimp only
  rw [hd]
  simp

/-- Witness for the amended claim C2 at the 25×25 rectangle with an empty
cache. -/
theorem tile_count_guard_no_fetch_render_proceeds_witness :
    download_tiles_for_area 0 24 0 24 (fun _ _ => false)
      = [RenderEvent.errorPrint] ∧
    RenderEvent.assembleSupertile
      ∈ render_from_range ⟨0, 24, 0, 24⟩ (fun _ _ => false) :=
  tile_count_guard_no_fetch_render_proceeds 0 24 0 24 (fun _ _ => false)
    (by decide)

/-! ### Month-range handling (`strava_local_heatmap.py`,
`extract_start_stop_from_month` and `main`).  Python strings are modelled as
lists of characters. -/

/-- Python `str.split('-')`. -/
def split_dash : List Char → List (List Char)
  | [] => [[]]
  | c :: rest =>
    match split_dash rest with
    | [] => [[]]
    | g :: gs => if c = '-' then [] :: g :: gs else (c :: g) :: gs

/-- The numeric value of a decimal digit character. -/
def digit_val (c : Char) : Option ℕ :=
  if '0' ≤ c ∧ c ≤ '9' then some (c.toNat - '0'.toNat) else none

/-- Accumulate the decimal digits of a string. -/
def parse_nat_digits : List Char → ℕ → Option ℕ
  | [], acc => some acc
  | c :: rest, acc =>
    match digit_val c with
    | none => none
    | some d => parse_nat_digits rest (acc * 10 + d)

/-- Python `int(s)` on the strings this program feeds it: an optional leading
minus sign followed by decimal digits; anything else raises (`none`). -/
def pyint : List Char → Option ℤ
  | [] => none
  | '-' :: rest =>
    if rest.isEmpty then none
    else (parse_nat_digits rest 0).map (fun v => -(v : ℤ))
  | s => (parse_nat_digits s 0).map (fun v => (v : ℤ))

/-- The swap-and-clamp sequence of `extract_start_stop_from_month` after
parsing: swap if `start > stop`, clamp `start` into [1, 13], increment
`stop`, clamp `stop` into [1, 13]. -/
def month_clamp (a b : ℤ) : ℤ × ℤ :=
  let s0 := if a > b then b else a
  let t0 := if a > b then a else b
  let s1 := if s0 < 1 then 1 else s0
  let s2 := if s1 > 13 then 13 else s1
  let t1 := t0 + 1
  let t2 := if t1 > 13 then 13 else t1
  let t3 := if t2 < 1 then 1 else t2
  (s2, t3)

/-- `strava_local_heatmap.extract_start_stop_from_month`: split on `'-'`;
with fewer than two pieces or an empty first/last piece return (1, 13),
otherwise parse the first and last pieces and swap/clamp them. -/
def extract_start_stop_from_month (month : List Char) : Option (ℤ × ℤ) :=
  match split_dash month with
  | [] => some (1, 13)
  | first :: rest =>
    let lastPiece := rest.getLastD first
    if (first :: rest).length < 2 ∨ first = [] ∨ lastPiece = [] then
      some (1, 13)
    else
      match pyint first, pyint lastPiece with
      | some a, some b => some (month_clamp a b)
      | _, _ => none

/-- The month indices `main` iterates over (`range(start, stop)`) when the
month argument is `'0'` or contains `'-'`; `none` on the single-month branch
of `main`. -/
def months_iterated (month : List Char) : Option (List ℤ) :=
  if month = ['0'] ∨ '-' ∈ month then
    if '-' ∈ month then
      (extract_start_stop_from_month month).map fun p => intRange p.1 p.2
    else some (intRange 1 13)
  else none

/-! ### Density accumulation slice semantics (`create_heatmap`, trackpoint
loop `data[i - w_pixels:i + w_pixels + 1, j - w_pixels:j + w_pixels + 1] += 1`) -/

/-- CPython slice-index normalization for an axis of length `n`: a negative
index is first shifted by `n`, then the result is clamped into `[0, n]`.
Slicing never raises an out-of-bounds error. -/
def norm_slice_idx (n : ℕ) (a : ℤ) : ℕ :=
  (min (max (if a < 0 then a + n else a) 0) (n : ℤ)).toNat

/-- The `+= 1` slice assignment on the density grid for one trackpoint with
rounded pixel indices `(i, j)` and half-window `w`: every cell of the
(normalized) row range `[i-w, i+w+1)` × column range `[j-w, j+w+1)` is
incremented. -/
noncomputable def add_window (rows cols : ℕ) (data : ℕ → ℕ → ℝ)
    (i j w : ℤ) : ℕ → ℕ → ℝ :=
  fun r c =>
    if norm_slice_idx rows (i - w) ≤ r ∧ r < norm_slice_idx rows (i + w + 1) ∧
       norm_slice_idx cols (j - w) ≤ c ∧ c < norm_slice_idx cols (j + w + 1)
    then data r c + 1 else data r c

/-- If `0 ≤ i < w` and the axis is at least as long as the window, the
normalized slice `[i-w, i+w+1)` is empty: the negative start index wraps to
`i - w + n`, which is at least the stop index `i + w + 1`. -/
theorem slice_stop_le_start {n : ℕ} {i w : ℤ} (h0 : 0 ≤ i) (hiw : i < w)
    (hn : 2 * w + 1 ≤ (n : ℤ)) :
    norm_slice_idx n (i + w + 1) ≤ norm_slice_idx n (i - w) := by
  unfold norm_slice_idx
  rw [if_neg (by omega), if_pos (by omega)]
  rw [max_eq_left (by omega : (0:ℤ) ≤ i + w + 1),
    max_eq_left (by omega : (0:ℤ) ≤ i - w + n),
    min_eq_left (by omega : i + w + 1 ≤ (n:ℤ)),
    min_eq_left (by omega : i - w + n ≤ (n:ℤ))]
  omega

/-! ### Claim theorems (third group) -/

/-- Claim C7 (counterexample): the month string "3-9" does not produce 9
renders — the iteration runs over months 3 through 9 inclusive, which is 7
iterations. -/
theorem month_range_three_nine_not_nine_renders :
    ¬((months_iterated ['3', '-', '9']).map List.length = some 9) := by
  decide

/-- Claim C7 (amended): requesting the month string "3-9" makes the pipeline
iterate over exactly months 3 through 9 inclusive — 7 renders, not 9 — and
requesting "0" is equivalent to "1-12", iterating over all 12 months. -/
theorem month_range_iteration :
    months_iterated ['3', '-', '9'] = some [3, 4, 5, 6, 7, 8, 9] ∧
    (months_iterated ['3', '-', '9']).map List.length = some 7 ∧
    months_iterated ['0'] = some [1, 2, 3, 4, 5, 6, 7, 8, 9, 10, 11, 12] ∧
    months_iterated ['0']
      = (extract_start_stop_from_month ['1', '-', '1', '2']).map
          (fun p => intRange p.1 p.2) := by
  decide

/-- Claim C10: the accumulation slice assignment never reads or writes out of
bounds (it is total by Python slice semantics), and for a trackpoint whose
rounded pixel row index `i` or column index `j` is smaller than the
half-window `w` (with nonnegative indices, and a grid larger than the
window), the slice is empty under Python negative-index normalization, so the
point contributes nothing to the density grid. -/
theorem edge_point_contributes_nothing (rows cols : ℕ) (data : ℕ → ℕ → ℝ)
    (i j w : ℤ) (hrows : 2 * w + 1 ≤ (rows : ℤ))
    (hcols : 2 * w + 1 ≤ (cols : ℤ)) (hi : 0 ≤ i) (hj : 0 ≤ j)
    (hij : i < w ∨ j < w) :
    add_window rows cols data i j w = data := by
  funext r c
  unfold add_window
  rw [if_neg]
  rintro ⟨hr1, hr2, hc1, hc2⟩
  rcases hij with h | h
  · have := slice_stop_le_start (n := rows) hi h hrows
    omega
  · have := slice_stop_le_start (n := cols) hj h hcols
    omega

/-- Witness for claim C10: a point at row 0 (above-left of the window) on a
5×5 grid with half-window 1 leaves the grid unchanged. -/
theorem edge_point_contributes_nothing_witness :
    add_window 5 5 (fun _ _ => (0 : ℝ)) 0 3 1 = fun _ _ => (0 : ℝ) :=
  edge_point_contributes_nothing 5 5 (fun _ _ => (0 : ℝ)) 0 3 1
    (by norm_num) (by norm_num) (by norm_num) (by norm_num)
    (Or.inl (by norm_num))

/-! ### Claim C9: certified numerical evaluation of the projection at
latitude 50.7742, longitude 6.0745 (zooms 9 and 13) -/

/-- Lower bound on the latitude in radians: `radians 50.7742` with `π`
replaced by its 20-digit lower bound. -/
noncomputable def lat_rad_lo : ℝ := 253871 * 3.14159265358979323846 / 900000

/-- Upper bound on the latitude in radians: `radians 50.7742` with `π`
replaced by its 20-digit upper bound. -/
noncomputable def lat_rad_hi : ℝ := 253871 * 3.14159265358979323847 / 900000

/-- `radians 50.7742` lies between `lat_rad_lo` and `lat_rad_hi`. -/
theorem lat_rad_ref_bounds :
    lat_rad_lo ≤ radians 50.7742 ∧ radians 50.7742 ≤ lat_rad_hi := by
  unfold radians lat_rad_lo lat_rad_hi
  constructor
  · linarith [Real.pi_gt_d20]
  · linarith [Real.pi_lt_d20]

/-- `sin` is 1-Lipschitz. -/
theorem abs_sin_sub_le (a b : ℝ) : |Real.sin a - Real.sin b| ≤ |a - b| := by
  rw [Real.sin_sub_sin, abs_mul, abs_mul, abs_two]
  have h1 : |Real.sin ((a - b) / 2)| ≤ |(a - b) / 2| := Real.abs_sin_le_abs
  have h2 : |Real.cos ((a + b) / 2)| ≤ 1 := Real.abs_cos_le_one _
  calc 2 * |Real.sin ((a - b) / 2)| * |Real.cos ((a + b) / 2)|
      ≤ 2 * |(a - b) / 2| * 1 :=
        mul_le_mul (by linarith) h2 (abs_nonneg _) (by positivity)
    _ = |a - b| := by rw [abs_div, abs_two]; ring

/-- `cos` is 1-Lipschitz. -/
theorem abs_cos_sub_le (a b : ℝ) : |Real.cos a - Real.cos b| ≤ |a - b| := by
  rw [Real.cos_sub_cos, abs_mul, abs_mul, abs_neg, abs_two]
  have h1 : |Real.sin ((a - b) / 2)| ≤ |(a - b) / 2| := Real.abs_sin_le_abs
  have h2 : |Real.sin ((a + b) / 2)| ≤ 1 := Real.abs_sin_le_one _
  calc 2 * |Real.sin ((a + b) / 2)| * |Real.sin ((a - b) / 2)|
      ≤ 2 * 1 * |(a - b) / 2| :=
        mul_le_mul (by linarith) h1 (abs_nonneg _) (by positivity)
    _ = |a - b| := by rw [abs_div, abs_two]; ring

/-- Interval propagation through the double-angle formulas, for arguments in
the first quadrant. -/
theorem sin_cos_double_bounds (x slo shi clo chi : ℝ)
    (hs1 : slo ≤ Real.sin x) (hs2 : Real.sin x ≤ shi)
    (hc1 : clo ≤ Real.cos x) (hc2 : Real.cos x ≤ chi)
    (hs0 : 0 ≤ slo) (hc0 : 0 ≤ clo) :
    (2 * slo * clo ≤ Real.sin (2 * x) ∧ Real.sin (2 * x) ≤ 2 * shi * chi) ∧
    (1 - 2 * shi ^ 2 ≤ Real.cos (2 * x) ∧
     Real.cos (2 * x) ≤ 1 - 2 * slo ^ 2) := by
  have hsx : 0 ≤ Real.sin x := le_trans hs0 hs1
  have hcx : 0 ≤ Real.cos x := le_trans hc0 hc1
  have hsin2 := Real.sin_two_mul x
  have hcos2 : Real.cos (2 * x) = 1 - 2 * Real.sin x ^ 2 := by
    have h1 := Real.sin_sq_add_cos_sq x
    have h2 := Real.cos_two_mul x
    nlinarith [h1, h2]
  have hp1 : slo * clo ≤ Real.sin x * Real.cos x := mul_le_mul hs1 hc1 hc0 hsx
  have hp2 : Real.sin x * Real.cos x ≤ shi * chi :=
    mul_le_mul hs2 hc2 hcx (le_trans hsx hs2)
  have hp3 : Real.sin x ^ 2 ≤ shi ^ 2 := by nlinarith
  have hp4 : slo ^ 2 ≤ Real.sin x ^ 2 := by nlinarith
  refine ⟨⟨?_, ?_⟩, ?_, ?_⟩
  · rw [hsin2]; linarith
  · rw [hsin2]; linarith
  · rw [hcos2]; linarith
  · rw [hcos2]; linarith


/-- Certified bounds on `sin` and `cos` at `lat_rad_lo`, from the quartic
Taylor bounds at `lat_rad_lo / 2 ^ 19` and 19 double-angle steps,
with outward rounding of the interval endpoints at every step. -/
theorem sin_cos_lat_rad_lo :
    (0.774659810546425056236046324485721829 ≤ Real.sin lat_rad_lo ∧
     Real.sin lat_rad_lo ≤ 0.774659810546425056736395790916418697) ∧
    (0.632378192163658374980327560250406936 ≤ Real.cos lat_rad_lo ∧
     Real.cos lat_rad_lo ≤ 0.632378192163658375374853963031535741) := by
  have hx0 : (0 : ℝ) ≤ lat_rad_lo / 2 ^ 19 := by norm_num [lat_rad_lo]
  have hx1 : |lat_rad_lo / 2 ^ 19| ≤ 1 := by
    rw [abs_of_nonneg hx0]
    norm_num [lat_rad_lo]
  have hsb := Real.sin_bound hx1
  have hcb := Real.cos_bound hx1
  rw [abs_of_nonneg hx0, abs_le] at hsb hcb
  have b19 : (0.00000169024842274796090849454704029 ≤ Real.sin (lat_rad_lo / 2 ^ 19) ∧
      Real.sin (lat_rad_lo / 2 ^ 19) ≤ 0.00000169024842274796090934476627199) ∧
      (0.999999999998571530134697229751314574 ≤ Real.cos (lat_rad_lo / 2 ^ 19) ∧
      Real.cos (lat_rad_lo / 2 ^ 19) ≤ 0.999999999998571530134698079970546274) := by
    refine ⟨⟨?_, ?_⟩, ?_, ?_⟩
    · linarith [hsb.1, show (0.00000169024842274796090849454704029 : ℝ) ≤ lat_rad_lo / 2 ^ 19
        - (lat_rad_lo / 2 ^ 19) ^ 3 / 6
        - (lat_rad_lo / 2 ^ 19) ^ 4 * (5 / 96) from by norm_num [lat_rad_lo]]
    · linarith [hsb.2, show lat_rad_lo / 2 ^ 19
        - (lat_rad_lo / 2 ^ 19) ^ 3 / 6
        + (lat_rad_lo / 2 ^ 19) ^ 4 * (5 / 96)
        ≤ (0.00000169024842274796090934476627199 : ℝ) from by norm_num [lat_rad_lo]]
    · linarith [hcb.1, show (0.999999999998571530134697229751314574 : ℝ) ≤ 1
        - (lat_rad_lo / 2 ^ 19) ^ 2 / 2
        - (lat_rad_lo / 2 ^ 19) ^ 4 * (5 / 96) from by norm_num [lat_rad_lo]]
    · linarith [hcb.2, show 1 - (lat_rad_lo / 2 ^ 19) ^ 2 / 2
        + (lat_rad_lo / 2 ^ 19) ^ 4 * (5 / 96)
        ≤ (0.999999999998571530134698079970546274 : ℝ) from by norm_num [lat_rad_lo]]
  have h18 := sin_cos_double_bounds _ _ _ _ _ b19.1.1 b19.1.2
    b19.2.1 b19.2.2 (by norm_num) (by norm_num)
  rw [show (2 : ℝ) * (lat_rad_lo / 2 ^ 19) = lat_rad_lo / 2 ^ 18 by ring] at h18
  have b18 : (0.000003380496845491092879115552081413 ≤ Real.sin (lat_rad_lo / 2 ^ 18) ∧
      Real.sin (lat_rad_lo / 2 ^ 18) ≤ 0.000003380496845491092880815993418975) ∧
      (0.999999999994286120538796060843930403 ≤ Real.cos (lat_rad_lo / 2 ^ 18) ∧
      Real.cos (lat_rad_lo / 2 ^ 18) ≤ 0.999999999994286120538796060849678731) :=
    ⟨⟨le_trans (by norm_num) h18.1.1, le_trans h18.1.2 (by norm_num)⟩,
     le_trans (by norm_num) h18.2.1, le_trans h18.2.2 (by norm_num)⟩
  have h17 := sin_cos_double_bounds _ _ _ _ _ b18.1.1 b18.1.2
    b18.2.1 b18.2.2 (by norm_num) (by norm_num)
  rw [show (2 : ℝ) * (lat_rad_lo / 2 ^ 18) = lat_rad_lo / 2 ^ 17 by ring] at h17
  have b17 : (0.000006760993690943554255242871639357 ≤ Real.sin (lat_rad_lo / 2 ^ 17) ∧
      Real.sin (lat_rad_lo / 2 ^ 17) ≤ 0.000006760993690943554258643754314502) ∧
      (0.999999999977144482155249540212715948 ≤ Real.cos (lat_rad_lo / 2 ^ 17) ∧
      Real.cos (lat_rad_lo / 2 ^ 17) ≤ 0.999999999977144482155249540235709295) :=
    ⟨⟨le_trans (by norm_num) h17.1.1, le_trans h17.1.2 (by norm_num)⟩,
     le_trans (by norm_num) h17.2.1, le_trans h17.2.2 (by norm_num)⟩
  have h16 := sin_cos_double_bounds _ _ _ _ _ b17.1.1 b17.1.2
    b17.2.1 b17.2.2 (by norm_num) (by norm_num)
  rw [show (2 : ℝ) * (lat_rad_lo / 2 ^ 17) = lat_rad_lo / 2 ^ 16 by ring] at h16
  have b16 : (0.000013521987381578056486582531919984 ≤ Real.sin (lat_rad_lo / 2 ^ 16) ∧
      Real.sin (lat_rad_lo / 2 ^ 16) ≤ 0.000013521987381578056493384297270431) ∧
      (0.999999999908577928622042910242767207 ≤ Real.cos (lat_rad_lo / 2 ^ 16) ∧
      Real.cos (lat_rad_lo / 2 ^ 16) ≤ 0.999999999908577928622042910334740593) :=
    ⟨⟨le_trans (by norm_num) h16.1.1, le_trans h16.1.2 (by norm_num)⟩,
     le_trans (by norm_num) h16.2.1, le_trans h16.2.2 (by norm_num)⟩
  have h15 := sin_cos_double_bounds _ _ _ _ _ b16.1.1 b16.1.2
    b16.2.1 b16.2.2 (by norm_num) (by norm_num)
  rw [show (2 : ℝ) * (lat_rad_lo / 2 ^ 16) = lat_rad_lo / 2 ^ 15 by ring] at h15
  have b15 : (0.0000270439747606836967820241354987 ≤ Real.sin (lat_rad_lo / 2 ^ 15) ∧
      Real.sin (lat_rad_lo / 2 ^ 15) ≤ 0.000027043974760683696795627666200839) ∧
      (0.99999999963431171450488763124114139 ≤ Real.cos (lat_rad_lo / 2 ^ 15) ∧
      Real.cos (lat_rad_lo / 2 ^ 15) ≤ 0.999999999634311714504887631609034932) :=
    ⟨⟨le_trans (by norm_num) h15.1.1, le_trans h15.1.2 (by norm_num)⟩,
     le_trans (by norm_num) h15.2.1, le_trans h15.2.2 (by norm_num)⟩
  have h14 := sin_cos_double_bounds _ _ _ _ _ b15.1.1 b15.1.2
    b15.2.1 b15.2.2 (by norm_num) (by norm_num)
  rw [show (2 : ℝ) * (lat_rad_lo / 2 ^ 15) = lat_rad_lo / 2 ^ 14 by ring] at h14
  have b14 : (0.000054087949501588064037633245181209 ≤ Real.sin (lat_rad_lo / 2 ^ 14) ∧
      Real.sin (lat_rad_lo / 2 ^ 14) ≤ 0.000054087949501588064064840306595437) ∧
      (0.999999998537246858287006369261275185 ≤ Real.cos (lat_rad_lo / 2 ^ 14) ∧
      Real.cos (lat_rad_lo / 2 ^ 14) ≤ 0.999999998537246858287006370732849349) :=
    ⟨⟨le_trans (by norm_num) h14.1.1, le_trans h14.1.2 (by norm_num)⟩,
     le_trans (by norm_num) h14.2.1, le_trans h14.2.2 (by norm_num)⟩
  have h13 := sin_cos_double_bounds _ _ _ _ _ b14.1.1 b14.1.2
    b14.2.1 b14.2.2 (by norm_num) (by norm_num)
  rw [show (2 : ℝ) * (lat_rad_lo / 2 ^ 14) = lat_rad_lo / 2 ^ 13 by ring] at h13
  have b13 : (0.000108175898844941491950743113055403 ≤ Real.sin (lat_rad_lo / 2 ^ 13) ∧
      Real.sin (lat_rad_lo / 2 ^ 13) ≤ 0.000108175898844941492005157235963454) ∧
      (0.99999999414898743742731898422756719 ≤ Real.cos (lat_rad_lo / 2 ^ 13) ∧
      Real.cos (lat_rad_lo / 2 ^ 13) ≤ 0.999999994148987437427318990113863846) :=
    ⟨⟨le_trans (by norm_num) h13.1.1, le_trans h13.1.2 (by norm_num)⟩,
     le_trans (by norm_num) h13.2.1, le_trans h13.2.2 (by norm_num)⟩
  have h12 := sin_cos_double_bounds _ _ _ _ _ b13.1.1 b13.1.2
    b13.2.1 b13.2.2 (by norm_num) (by norm_num)
  rw [show (2 : ℝ) * (lat_rad_lo / 2 ^ 13) = lat_rad_lo / 2 ^ 12 by ring] at h12
  have b12 : (0.000216351796424005897682797739727932 ≤ Real.sin (lat_rad_lo / 2 ^ 12) ∧
      Real.sin (lat_rad_lo / 2 ^ 12) ≤ 0.00021635179642400589779162598618079) ∧
      (0.99999997659594981817797195167693165 ≤ Real.cos (lat_rad_lo / 2 ^ 12) ∧
      Real.cos (lat_rad_lo / 2 ^ 12) ≤ 0.999999976595949818177971975222118272) :=
    ⟨⟨le_trans (by norm_num) h12.1.1, le_trans h12.1.2 (by norm_num)⟩,
     le_trans (by norm_num) h12.2.1, le_trans h12.2.2 (by norm_num)⟩
  have h11 := sin_cos_double_bounds _ _ _ _ _ b12.1.1 b12.1.2
    b12.2.1 b12.2.2 (by norm_num) (by norm_num)
  rw [show (2 : ℝ) * (lat_rad_lo / 2 ^ 12) = lat_rad_lo / 2 ^ 11 by ring] at h11
  have b11 : (0.000432703582720995194496040224708333 ≤ Real.sin (lat_rad_lo / 2 ^ 11) ∧
      Real.sin (lat_rad_lo / 2 ^ 11) ≤ 0.000432703582720995194713696722708093) ∧
      (0.999999906383800368211017633195133793 ≤ Real.cos (lat_rad_lo / 2 ^ 11) ∧
      Real.cos (lat_rad_lo / 2 ^ 11) ≤ 0.999999906383800368211017727375880281) :=
    ⟨⟨le_trans (by norm_num) h11.1.1, le_trans h11.1.2 (by norm_num)⟩,
     le_trans (by norm_num) h11.2.1, le_trans h11.2.2 (by norm_num)⟩
  have h10 := sin_cos_double_bounds _ _ _ _ _ b11.1.1 b11.1.2
    b11.2.1 b11.2.2 (by norm_num) (by norm_num)
  rw [show (2 : ℝ) * (lat_rad_lo / 2 ^ 11) = lat_rad_lo / 2 ^ 10 by ring] at h10
  have b10 : (0.000865407084425860426194072849910405 ≤ Real.sin (lat_rad_lo / 2 ^ 10) ∧
      Real.sin (lat_rad_lo / 2 ^ 10) ≤ 0.000865407084425860426629385886662271) ∧
      (0.999999625535219000829737530715712889 ≤ Real.cos (lat_rad_lo / 2 ^ 10) ∧
      Real.cos (lat_rad_lo / 2 ^ 10) ≤ 0.999999625535219000829737907438698838) :=
    ⟨⟨le_trans (by norm_num) h10.1.1, le_trans h10.1.2 (by norm_num)⟩,
     le_trans (by norm_num) h10.2.1, le_trans h10.2.2 (by norm_num)⟩
  have h9 := sin_cos_double_bounds _ _ _ _ _ b10.1.1 b10.1.2
    b10.2.1 b10.2.2 (by norm_num) (by norm_num)
  rw [show (2 : ℝ) * (lat_rad_lo / 2 ^ 10) = lat_rad_lo / 2 ^ 9 by ring] at h9
  have b9 : (0.001730813520722772163067596711751299 ≤ Real.sin (lat_rad_lo / 2 ^ 9) ∧
      Real.sin (lat_rad_lo / 2 ^ 9) ≤ 0.001730813520722772163938223111273712) ∧
      (0.999998502141156451063367635954638513 ≤ Real.cos (lat_rad_lo / 2 ^ 9) ∧
      Real.cos (lat_rad_lo / 2 ^ 9) ≤ 0.999998502141156451063369142846582306) :=
    ⟨⟨le_trans (by norm_num) h9.1.1, le_trans h9.1.2 (by norm_num)⟩,
     le_trans (by norm_num) h9.2.1, le_trans h9.2.2 (by norm_num)⟩
  have h8 := sin_cos_double_bounds _ _ _ _ _ b9.1.1 b9.1.2
    b9.2.1 b9.2.2 (by norm_num) (by norm_num)
  rw [show (2 : ℝ) * (lat_rad_lo / 2 ^ 9) = lat_rad_lo / 2 ^ 8 by ring] at h8
  have b8 : (0.003461621856416867228785230941996333 ≤ Real.sin (lat_rad_lo / 2 ^ 8) ∧
      Real.sin (lat_rad_lo / 2 ^ 8) ≤ 0.003461621856416867230526486349188157) ∧
      (0.999994008569112966483866059468774996 ≤ Real.cos (lat_rad_lo / 2 ^ 8) ∧
      Real.cos (lat_rad_lo / 2 ^ 8) ≤ 0.999994008569112966483872087036550163) :=
    ⟨⟨le_trans (by norm_num) h8.1.1, le_trans h8.1.2 (by norm_num)⟩,
     le_trans (by norm_num) h8.2.1, le_trans h8.2.2 (by norm_num)⟩
  have h7 := sin_cos_double_bounds _ _ _ _ _ b8.1.1 b8.1.2
    b8.2.1 b8.2.2 (by norm_num) (by norm_num)
  rw [show (2 : ℝ) * (lat_rad_lo / 2 ^ 8) = lat_rad_lo / 2 ^ 7 by ring] at h7
  have b7 : (0.006923202232697514924935173657860214 ≤ Real.sin (lat_rad_lo / 2 ^ 7) ∧
      Real.sin (lat_rad_lo / 2 ^ 7) ≤ 0.006923202232697514928417705337341708) ∧
      (0.999976034348246354083662689741291284 ≤ Real.cos (lat_rad_lo / 2 ^ 7) ∧
      Real.cos (lat_rad_lo / 2 ^ 7) ≤ 0.999976034348246354083686800012391842) :=
    ⟨⟨le_trans (by norm_num) h7.1.1, le_trans h7.1.2 (by norm_num)⟩,
     le_trans (by norm_num) h7.2.1, le_trans h7.2.2 (by norm_num)⟩
  have h6 := sin_cos_double_bounds _ _ _ _ _ b7.1.1 b7.1.2
    b7.2.1 b7.2.2 (by norm_num) (by norm_num)
  rw [show (2 : ℝ) * (lat_rad_lo / 2 ^ 7) = lat_rad_lo / 2 ^ 6 by ring] at h6
  have b6 : (0.013846072627287572064826531078735949 ≤ Real.sin (lat_rad_lo / 2 ^ 6) ∧
      Real.sin (lat_rad_lo / 2 ^ 6) ≤ 0.013846072627287572071791761355981464) ∧
      (0.999904138541690344288713927834570059 ≤ Real.cos (lat_rad_lo / 2 ^ 6) ∧
      Real.cos (lat_rad_lo / 2 ^ 6) ≤ 0.999904138541690344288810368918965364) :=
    ⟨⟨le_trans (by norm_num) h6.1.1, le_trans h6.1.2 (by norm_num)⟩,
     le_trans (by norm_num) h6.2.1, le_trans h6.2.2 (by norm_num)⟩
  have h5 := sin_cos_double_bounds _ _ _ _ _ b6.1.1 b6.1.2
    b6.2.1 b6.2.2 (by norm_num) (by norm_num)
  rw [show (2 : ℝ) * (lat_rad_lo / 2 ^ 6) = lat_rad_lo / 2 ^ 5 by ring] at h5
  have b5 : (0.027689490645147317744230390779682546 ≤ Real.sin (lat_rad_lo / 2 ^ 5) ∧
      Real.sin (lat_rad_lo / 2 ^ 5) ≤ 0.027689490645147317758162186600427482) ∧
      (0.999616572545599755662575732261586365 ≤ Real.cos (lat_rad_lo / 2 ^ 5) ∧
      Real.cos (lat_rad_lo / 2 ^ 5) ≤ 0.999616572545599755662961496598724461) :=
    ⟨⟨le_trans (by norm_num) h5.1.1, le_trans h5.1.2 (by norm_num)⟩,
     le_trans (by norm_num) h5.2.1, le_trans h5.2.2 (by norm_num)⟩
  have h4 := sin_cos_double_bounds _ _ _ _ _ b5.1.1 b5.1.2
    b5.2.1 b5.2.2 (by norm_num) (by norm_num)
  rw [show (2 : ℝ) * (lat_rad_lo / 2 ^ 5) = lat_rad_lo / 2 ^ 4 by ring] at h4
  have b4 : (0.055357747468471219057791818099449514 ≤ Real.sin (lat_rad_lo / 2 ^ 4) ∧
      Real.sin (lat_rad_lo / 2 ^ 4) ≤ 0.055357747468471219085666089310934676) ∧
      (0.998466584215624598353204059641895135 ≤ Real.cos (lat_rad_lo / 2 ^ 4) ∧
      Real.cos (lat_rad_lo / 2 ^ 4) ≤ 0.998466584215624598354747116962089614) :=
    ⟨⟨le_trans (by norm_num) h4.1.1, le_trans h4.1.2 (by norm_num)⟩,
     le_trans (by norm_num) h4.2.1, le_trans h4.2.2 (by norm_num)⟩
  have h3 := sin_cos_double_bounds _ _ _ _ _ b4.1.1 b4.1.2
    b4.2.1 b4.2.2 (by norm_num) (by norm_num)
  rw [show (2 : ℝ) * (lat_rad_lo / 2 ^ 4) = lat_rad_lo / 2 ^ 3 by ring] at h3
  have b3 : (0.110545722049431195717152601246615811 ≤ Real.sin (lat_rad_lo / 2 ^ 3) ∧
      Real.sin (lat_rad_lo / 2 ^ 3) ≤ 0.110545722049431195772986498329600236) ∧
      (0.993871039590433936669365934982563184 ≤ Real.cos (lat_rad_lo / 2 ^ 3) ∧
      Real.cos (lat_rad_lo / 2 ^ 3) ≤ 0.993871039590433936675538162448935476) :=
    ⟨⟨le_trans (by norm_num) h3.1.1, le_trans h3.1.2 (by norm_num)⟩,
     le_trans (by norm_num) h3.2.1, le_trans h3.2.2 (by norm_num)⟩
  have h2 := sin_cos_double_bounds _ _ _ _ _ b3.1.1 b3.1.2
    b3.2.1 b3.2.2 (by norm_num) (by norm_num)
  rw [show (2 : ℝ) * (lat_rad_lo / 2 ^ 3) = lat_rad_lo / 2 ^ 2 by ring] at h2
  have b2 : (0.219736383391086675396043987937863135 ≤ Real.sin (lat_rad_lo / 2 ^ 2) ∧
      Real.sin (lat_rad_lo / 2 ^ 2) ≤ 0.219736383391086675508392001298212103) ∧
      (0.975559286673139803090920551552515555 ≤ Real.cos (lat_rad_lo / 2 ^ 2) ∧
      Real.cos (lat_rad_lo / 2 ^ 2) ≤ 0.97555928667313980311560934542400413) :=
    ⟨⟨le_trans (by norm_num) h2.1.1, le_trans h2.1.2 (by norm_num)⟩,
     le_trans (by norm_num) h2.2.1, le_trans h2.2.2 (by norm_num)⟩
  have h1 := sin_cos_double_bounds _ _ _ _ _ b2.1.1 b2.1.2
    b2.2.1 b2.2.2 (by norm_num) (by norm_num)
  rw [show (2 : ℝ) * (lat_rad_lo / 2 ^ 2) = lat_rad_lo / 2 ^ 1 by ring] at h1
  have b1 : (0.428731738874288163322531099806689976 ≤ Real.sin (lat_rad_lo / 2 ^ 1) ∧
      Real.sin (lat_rad_lo / 2 ^ 1) ≤ 0.428731738874288163552585447903840665) ∧
      (0.903431843628410735631267446433985672 ≤ Real.cos (lat_rad_lo / 2 ^ 1) ∧
      Real.cos (lat_rad_lo / 2 ^ 1) ≤ 0.903431843628410735730015230981891948) :=
    ⟨⟨le_trans (by norm_num) h1.1.1, le_trans h1.1.2 (by norm_num)⟩,
     le_trans (by norm_num) h1.2.1, le_trans h1.2.2 (by norm_num)⟩
  have h0 := sin_cos_double_bounds _ _ _ _ _ b1.1.1 b1.1.2
    b1.2.1 b1.2.2 (by norm_num) (by norm_num)
  rw [show (2 : ℝ) * (lat_rad_lo / 2 ^ 1) = lat_rad_lo by ring] at h0
  have bfin : (0.774659810546425056236046324485721829 ≤ Real.sin (lat_rad_lo) ∧
      Real.sin (lat_rad_lo) ≤ 0.774659810546425056736395790916418697) ∧
      (0.632378192163658374980327560250406936 ≤ Real.cos (lat_rad_lo) ∧
      Real.cos (lat_rad_lo) ≤ 0.632378192163658375374853963031535741) :=
    ⟨⟨le_trans (by norm_num) h0.1.1, le_trans h0.1.2 (by norm_num)⟩,
     le_trans (by norm_num) h0.2.1, le_trans h0.2.2 (by norm_num)⟩
  exact bfin


/-- Certified bounds on `sin` and `cos` at `radians 50.7742`, via the
1-Lipschitz transfer from `lat_rad_lo`. -/
theorem sin_cos_ref_bounds :
    (0.774659810546425056233046324485721829 ≤ Real.sin (radians 50.7742) ∧
     Real.sin (radians 50.7742) ≤ 0.774659810546425056739395790916418697) ∧
    (0.632378192163658374977327560250406936 ≤ Real.cos (radians 50.7742) ∧
     Real.cos (radians 50.7742) ≤ 0.632378192163658375377853963031535741) := by
  have hb := sin_cos_lat_rad_lo
  have hr := lat_rad_ref_bounds
  have habs : |radians 50.7742 - lat_rad_lo| ≤ 3e-21 := by
    rw [abs_of_nonneg (by linarith [hr.1])]
    have hwidth : lat_rad_hi - lat_rad_lo ≤ 3e-21 := by
      norm_num [lat_rad_lo, lat_rad_hi]
    linarith [hr.2]
  have hs := le_trans (abs_sin_sub_le (radians 50.7742) lat_rad_lo) habs
  have hc := le_trans (abs_cos_sub_le (radians 50.7742) lat_rad_lo) habs
  rw [abs_le] at hs hc
  refine ⟨⟨?_, ?_⟩, ?_, ?_⟩
  · linarith [hb.1.1, hs.1, show (0.774659810546425056233046324485721829 : ℝ)
      ≤ 0.774659810546425056236046324485721829 - 3e-21 from by norm_num]
  · linarith [hb.1.2, hs.2, show (0.774659810546425056736395790916418697 : ℝ) + 3e-21
      ≤ 0.774659810546425056739395790916418697 from by norm_num]
  · linarith [hb.2.1, hc.1, show (0.632378192163658374977327560250406936 : ℝ)
      ≤ 0.632378192163658374980327560250406936 - 3e-21 from by norm_num]
  · linarith [hb.2.2, hc.2, show (0.632378192163658375374853963031535741 : ℝ) + 3e-21
      ≤ 0.632378192163658375377853963031535741 from by norm_num]


/-- Certified bounds on `tan(radians 50.7742) + 1/cos(radians 50.7742)`,
the argument of the logarithm in `deg2xy`. -/
theorem mercator_arg_bounds :
    2.80632670850728227886021749891469971 ≤ Real.tan (radians 50.7742)
        + 1 / Real.cos (radians 50.7742) ∧
    Real.tan (radians 50.7742) + 1 / Real.cos (radians 50.7742)
      ≤ 2.806326708507282281438354171274505566 := by
  have hb := sin_cos_ref_bounds
  have hcpos : (0 : ℝ) < Real.cos (radians 50.7742) := by
    linarith [hb.2.1, show (0:ℝ) < 0.632378192163658374977327560250406936 from by norm_num]
  have hform : Real.tan (radians 50.7742) + 1 / Real.cos (radians 50.7742)
      = (1 + Real.sin (radians 50.7742)) / Real.cos (radians 50.7742) := by
    rw [Real.tan_eq_sin_div_cos]
    field_simp
    ring
  rw [hform]
  constructor
  · calc (2.80632670850728227886021749891469971 : ℝ)
        ≤ (1 + 0.774659810546425056233046324485721829) / 0.632378192163658375377853963031535741 := by norm_num
      _ ≤ (1 + Real.sin (radians 50.7742)) / Real.cos (radians 50.7742) :=
        div_le_div₀ (by linarith [hb.1.1,
            show (0:ℝ) ≤ (0.774659810546425056233046324485721829:ℝ) from by norm_num])
          (by linarith [hb.1.1]) hcpos hb.2.2
  · calc (1 + Real.sin (radians 50.7742)) / Real.cos (radians 50.7742)
        ≤ (1 + 0.774659810546425056739395790916418697) / 0.632378192163658374977327560250406936 :=
          div_le_div₀ (by norm_num) (by linarith [hb.1.2])
            (by norm_num) hb.2.1
      _ ≤ 2.806326708507282281438354171274505566 := by norm_num

/-- Certified bounds on the logarithm of the Mercator argument at latitude
50.7742, obtained by comparing against `exp` at rational points (evaluated
with the order-15 Taylor sum and its remainder bound, after halving the
argument to stay within `|x| ≤ 1`). -/
theorem log_mercator_arg_bounds :
    (1.031876407014931 : ℝ)
      ≤ Real.log (Real.tan (radians 50.7742) + 1 / Real.cos (radians 50.7742)) ∧
    Real.log (Real.tan (radians 50.7742) + 1 / Real.cos (radians 50.7742))
      ≤ 1.031876407014942 := by
  have hA := mercator_arg_bounds
  have hApos : (0 : ℝ)
      < Real.tan (radians 50.7742) + 1 / Real.cos (radians 50.7742) := by
    linarith [hA.1, show (0:ℝ) < 2.80632670850728227886021749891469971 from by norm_num]
  constructor
  · rw [Real.le_log_iff_exp_le hApos]
    have hsplit : Real.exp (1.031876407014931 : ℝ)
        = Real.exp (1.031876407014931 / 2) * Real.exp (1.031876407014931 / 2) := by
      rw [← Real.exp_add]
      norm_num
    have hup : Real.exp ((1.031876407014931 : ℝ) / 2) ≤ 1.675209452130468857514620663699636872 := by
      have h := Real.exp_bound' (x := (1.031876407014931 : ℝ) / 2)
        (by norm_num) (by norm_num) (n := 15) (by norm_num)
      refine le_trans h ?_
      simp only [Finset.sum_range_succ, Finset.sum_range_zero]
      norm_num [Nat.factorial]
    have hpos : (0 : ℝ) ≤ Real.exp ((1.031876407014931 : ℝ) / 2) :=
      (Real.exp_pos _).le
    have hsq : Real.exp (1.031876407014931 : ℝ) ≤ 1.675209452130468857514620663699636872 * 1.675209452130468857514620663699636872 := by
      rw [hsplit]
      exact mul_le_mul hup hup hpos (by norm_num)
    linarith [hA.1, hsq,
      show (1.675209452130468857514620663699636872 : ℝ) * 1.675209452130468857514620663699636872 ≤ 2.80632670850728227886021749891469971 from by norm_num]
  · rw [Real.log_le_iff_le_exp hApos]
    have hsplit : Real.exp (1.031876407014942 : ℝ)
        = Real.exp (1.031876407014942 / 2) * Real.exp (1.031876407014942 / 2) := by
      rw [← Real.exp_add]
      norm_num
    have hlow : (1.675209452130478031310542299736967019 : ℝ) ≤ Real.exp ((1.031876407014942 : ℝ) / 2) := by
      have h := Real.sum_le_exp_of_nonneg
        (x := (1.031876407014942 : ℝ) / 2) (by norm_num) 15
      refine le_trans ?_ h
      simp only [Finset.sum_range_succ, Finset.sum_range_zero]
      norm_num [Nat.factorial]
    have hsq : (1.675209452130478031310542299736967019 : ℝ) * 1.675209452130478031310542299736967019 ≤ Real.exp (1.031876407014942 : ℝ) := by
      rw [hsplit]
      exact mul_le_mul hlow hlow (by norm_num) (Real.exp_pos _).le
    linarith [hA.2, hsq,
      show (2.806326708507282281438354171274505566 : ℝ) ≤ 1.675209452130478031310542299736967019 * 1.675209452130478031310542299736967019 from by norm_num]

/-- Claim C9: `deg2xy` applied to latitude 50.7742, longitude 6.0745 returns
(264.639288888888, 171.915145811798) at zoom 9 and
(4234.228622222222, 2750.642332988770) at zoom 13, each component within
absolute error 1e-8. -/
theorem projection_reference_values :
    |(deg2xy 50.7742 6.0745 9).1 - 264.639288888888| ≤ 1e-8 ∧
    |(deg2xy 50.7742 6.0745 9).2 - 171.915145811798| ≤ 1e-8 ∧
    |(deg2xy 50.7742 6.0745 13).1 - 4234.228622222222| ≤ 1e-8 ∧
    |(deg2xy 50.7742 6.0745 13).2 - 2750.642332988770| ≤ 1e-8 := by
  have hL := log_mercator_arg_bounds
  have hLpos : (0 : ℝ)
      < Real.log (Real.tan (radians 50.7742) + 1 / Real.cos (radians 50.7742)) :=
    lt_of_lt_of_le (by norm_num) hL.1
  have hq_hi : Real.log (Real.tan (radians 50.7742)
        + 1 / Real.cos (radians 50.7742)) / π ≤ 0.328456461672665046106143288716881443 := by
    refine le_trans (div_le_div₀ (by norm_num) hL.2 (by norm_num)
      Real.pi_gt_d20.le) ?_
    norm_num
  have hq_lo : (0.328456461672661544696349757630180969 : ℝ) ≤ Real.log (Real.tan (radians 50.7742)
        + 1 / Real.cos (radians 50.7742)) / π := by
    refine le_trans ?_ (div_le_div₀ hLpos.le hL.1 Real.pi_pos
      Real.pi_lt_d20.le)
    norm_num
  refine ⟨?_, ?_, ?_, ?_⟩
  · rw [abs_le]
    constructor <;> norm_num [deg2xy]
  · rw [abs_le]
    have h2 : (deg2xy 50.7742 6.0745 9).2
        = (1 - Real.log (Real.tan (radians 50.7742)
            + 1 / Real.cos (radians 50.7742)) / π) / 2 * 2 ^ 9 := rfl
    rw [h2]
    constructor
    · linarith [hq_hi,
        show (-(1e-8) : ℝ) ≤ (1 - 0.328456461672665046106143288716881443) / 2 * 2 ^ 9
          - 171.915145811798 from by norm_num]
    · linarith [hq_lo,
        show ((1 - 0.328456461672661544696349757630180969) / 2 * 2 ^ 9 : ℝ)
          - 171.915145811798 ≤ 1e-8 from by norm_num]
  · rw [abs_le]
    constructor <;> norm_num [deg2xy]
  · rw [abs_le]
    have h2 : (deg2xy 50.7742 6.0745 13).2
        = (1 - Real.log (Real.tan (radians 50.7742)
            + 1 / Real.cos (radians 50.7742)) / π) / 2 * 2 ^ 13 := rfl
    rw [h2]
    constructor
    · linarith [hq_hi,
        show (-(1e-8) : ℝ) ≤ (1 - 0.328456461672665046106143288716881443) / 2 * 2 ^ 13
          - 2750.642332988770 from by norm_num]
    · linarith [hq_lo,
        show ((1 - 0.328456461672661544696349757630180969) / 2 * 2 ^ 13 : ℝ)
          - 2750.642332988770 ≤ 1e-8 from by norm_num]

end StravaHeatmap
